import Mathlib

/-!
Shallow embedding of the fax-order OCR/extraction pipeline
(src/backend/app/ocr_utils.py and the matching/pricing loop of
src/backend/app/main.py), together with theorems settling the
specification claims about it.

Conventions: Python floats are modelled as exact rationals, Python strings
as Lean strings (ASCII lower-casing; Python's Unicode whitespace set is
modelled explicitly), fallible provider calls as Except / sum types, and
the external OCR provider and database tables as explicit parameters.
-/

namespace FaxOCR

/-- The set of characters Python's str.split() / str.strip() treat as
whitespace (the str.isspace code points). -/
def py_is_space (c : Char) : Bool :=
  let n := c.toNat
  (9 ≤ n && n ≤ 13) || (28 ≤ n && n ≤ 32) || n == 133 || n == 160 || n == 0x1680 ||
    (0x2000 ≤ n && n ≤ 0x200a) || n == 0x2028 || n == 0x2029 || n == 0x202f ||
    n == 0x205f || n == 0x3000

/-- JP_CHAR_RE from ocr_utils.py: hiragana/katakana U+3040-U+30FF, CJK
ideographs U+4E00-U+9FFF, ASCII letters and digits. -/
def jp_char (c : Char) : Bool :=
  let n := c.toNat
  (0x3040 ≤ n && n ≤ 0x30ff) || (0x4e00 ≤ n && n ≤ 0x9fff) ||
    (65 ≤ n && n ≤ 90) || (97 ≤ n && n ≤ 122) || (48 ≤ n && n ≤ 57)

/-- Core of _ocr_text_quality over the character list of the input
(`normalized` is the whitespace-free character list). -/
def ocr_quality_chars (l : List Char) : ℚ :=
  if (l.filter (fun c => !(py_is_space c))).isEmpty then 0
  else (((l.filter (fun c => !(py_is_space c))).filter (fun c => jp_char c)).length : ℚ) /
    ((max 1 (l.filter (fun c => !(py_is_space c))).length : ℕ) : ℚ)

/-- _ocr_text_quality: drop all whitespace, return 0 on empty, else the
fraction of remaining characters matching JP_CHAR_RE
(good / max(1, len)). -/
def ocr_text_quality (s : String) : ℚ :=
  ocr_quality_chars s.toList

/-- Python str.lower() (ASCII range; the catalog data exercised here is
ASCII/Japanese, where lower-casing is the identity outside ASCII). -/
def py_lower (s : String) : String := String.mk (s.toList.map Char.toLower)

/-- Python str.strip(): drop leading and trailing whitespace. -/
def py_strip (s : String) : String :=
  String.mk (((s.toList.dropWhile (fun c => py_is_space c)).reverse.dropWhile
    (fun c => py_is_space c)).reverse)

/-- Python's substring test `needle in hay`. -/
def is_substring (needle hay : String) : Bool :=
  (List.range (hay.toList.length + 1)).any
    (fun i => needle.toList.isPrefixOf (hay.toList.drop i))

/-- Decimal value of a run of ASCII digits. -/
def digits_val (ds : List Char) : ℕ :=
  ds.foldl (fun acc c => 10 * acc + (c.toNat - 48)) 0

/-- Python float() on an unsigned literal made only of digits, '.' and '-':
accepts d+ | d+.d* | .d+ (no sign handled here). -/
def py_float_unsigned (cs : List Char) : Option ℚ :=
  let ip := cs.takeWhile Char.isDigit
  let rest := cs.dropWhile Char.isDigit
  match rest with
  | [] => if ip.isEmpty then none else some (digits_val ip : ℚ)
  | '.' :: frac =>
      if frac.all Char.isDigit then
        if ip.isEmpty && frac.isEmpty then none
        else some ((digits_val ip : ℚ) + (digits_val frac : ℚ) / ((10 : ℚ) ^ frac.length))
      else none
  | _ => none

/-- Python float() on a string made only of digits, '.' and '-'. -/
def py_float (cs : List Char) : Option ℚ :=
  match cs with
  | '-' :: rest => (py_float_unsigned rest).map (fun q => -q)
  | _ => py_float_unsigned cs

/-- _parse_number: strip every character except digits, dot and minus, then
float(); 0.0 on empty input or a parse failure. -/
def parse_number (s : String) : ℚ :=
  if s == "" then 0
  else
    match py_float (s.toList.filter (fun c => c.isDigit || c == '.' || c == '-')) with
    | some q => q
    | none => 0

/-- Python int() applied to a float value: truncation toward zero. -/
def trunc_q (q : ℚ) : ℤ :=
  if q < 0 then -(Rat.floor (-q)) else Rat.floor q

/-- _normalize_header: remove all whitespace, lower-case. -/
def normalize_header (s : String) : String :=
  py_lower (String.mk (s.toList.filter (fun c => !(py_is_space c))))

/-- HEADER_ALIASES from ocr_utils.py, in source (dict) order. -/
def header_aliases : List (String × List String) :=
  [("product", ["品名", "品番", "商品名", "品目", "製品名", "品名/品目", "商品/品目"]),
   ("quantity", ["数量", "数", "数量(箱)", "数量(本)", "数量(個)", "数量/箱", "数量/本"]),
   ("unit_price", ["単価", "価格", "単価(円)", "単価(¥)"]),
   ("amount", ["金額", "合計", "金額(円)", "金額(税込)"]),
   ("product_code", ["品番", "型式", "型番", "商品コード", "アイテムコード", "品番/規格"]),
   ("unit", ["単位", "単位/梱", "単位(箱)", "単位(本)", "単位(個)"]),
   ("unit_number", ["ユニットNo", "ユニットNO", "ユニットNo.", "ユニット番号", "Unit No"]),
   ("delivery_number", ["納品番号", "納品No", "納品NO", "伝票No", "伝票番号", "伝票No."])]

/-- A header mapping: semantic field name to column index, in first-match
(insertion) order, keys unique. -/
abbrev Mapping := List (String × ℕ)

/-- Lookup in a Mapping (Python `mapping.get(key)` / `mapping[key]`). -/
def mlookup (m : Mapping) (k : String) : Option ℕ :=
  (m.find? (fun kv => kv.1 == k)).map (fun kv => kv.2)

/-- The inner double loop of _find_header_row for a single row: scan cells
left to right; for each not-yet-mapped field, map it to this column when
some alias occurs in the raw cell text or its normalized form occurs in the
normalized cell text. -/
def row_mapping (row : List String) : Mapping :=
  row.enum.foldl
    (fun m ci =>
      header_aliases.foldl
        (fun m ka =>
          if (m.find? (fun kv => kv.1 == ka.1)).isSome then m
          else if ka.2.any (fun a =>
              is_substring a ci.2 || is_substring (normalize_header a) (normalize_header ci.2)) then
            m ++ [(ka.1, ci.1)]
          else m)
        m)
    []

/-- The row loop of _find_header_row: keep the row with the most mapped
fields so far, stop as soon as a row maps at least two fields. -/
def find_header_go : List (List String) → ℕ → ℕ → Mapping → ℕ × Mapping
  | [], _, best_row, best_match => (best_row, best_match)
  | row :: rest, idx, best_row, best_match =>
    let m := row_mapping row
    let br := if m.length > best_match.length then idx else best_row
    let bm := if m.length > best_match.length then m else best_match
    if 2 ≤ m.length then (br, bm)
    else find_header_go rest (idx + 1) br bm

/-- _find_header_row. -/
def find_header_row (table : List (List String)) : ℕ × Mapping :=
  find_header_go table 0 0 []

/-- An extracted line prior to catalog resolution (the dicts built by
_lines_from_tables / _lines_from_blocks). -/
structure ExtractedRow where
  extracted_text : String
  quantity : ℤ
  unit_price : ℚ
  line_total : ℚ
  product_code : String := ""
  unit : String := ""
  unit_number : String := ""
  delivery_number : String := ""
deriving DecidableEq

/-- The quantity computation of _lines_from_tables (lines 151-153):
`int(_parse_number(cell)) or 1` when a quantity column is mapped, 1
otherwise. -/
def row_quantity (m : Mapping) (row : List String) : ℤ :=
  match mlookup m "quantity" with
  | some j => let v := trunc_q (parse_number (row.getD j "")); if v = 0 then 1 else v
  | none => 1

/-- One table's contribution in _lines_from_tables: rows after the header
row, skipping rows with blank product text. -/
def table_lines (table : List (List String)) : List ExtractedRow :=
  let hm := find_header_row table
  if (mlookup hm.2 "product").isNone then []
  else
    (table.drop (hm.1 + 1)).filterMap (fun row =>
      let ptext := py_strip (row.getD ((mlookup hm.2 "product").getD 0) "")
      if ptext == "" then none
      else
        let unit_price := match mlookup hm.2 "unit_price" with
          | some j => parse_number (row.getD j "")
          | none => 0
        let amount := match mlookup hm.2 "amount" with
          | some j => parse_number (row.getD j "")
          | none => 0
        let q := row_quantity hm.2 row
        some { extracted_text := ptext
               quantity := q
               unit_price := unit_price
               line_total := if amount = 0 then unit_price * (q : ℚ) else amount
               product_code := match mlookup hm.2 "product_code" with
                 | some j => py_strip (row.getD j "")
                 | none => ""
               unit := match mlookup hm.2 "unit" with
                 | some j => py_strip (row.getD j "")
                 | none => ""
               unit_number := match mlookup hm.2 "unit_number" with
                 | some j => py_strip (row.getD j "")
                 | none => ""
               delivery_number := match mlookup hm.2 "delivery_number" with
                 | some j => py_strip (row.getD j "")
                 | none => "" })

/-- _lines_from_tables: accumulate table rows across all tables. -/
def lines_from_tables (tables : List (List (List String))) : List ExtractedRow :=
  tables.foldl (fun acc t => acc ++ table_lines t) []

/-- Product master row (models.Product: internal_name, base_price). -/
structure Product where
  id : ℕ
  internal_name : String
  base_price : ℚ
deriving DecidableEq

/-- Product alias row (models.ProductAlias). -/
structure ProductAlias where
  alias_name : String
  product_id : ℕ
deriving DecidableEq

/-- Customer-specific price override row (models.CustomerPricing). -/
structure CustomerPricing where
  customer_id : ℕ
  product_id : ℕ
  override_price : ℚ
deriving DecidableEq

/-- The catalog tables read once per upload in upload_order. -/
structure Catalog where
  aliases : List ProductAlias
  products : List Product
  pricing : List CustomerPricing
deriving DecidableEq

/-- A resolved order line as persisted by upload_order (fields the
extraction/matching pipeline determines). -/
structure ResolvedLine where
  extracted_text : String
  normalized_name : String
  product_id : Option ℕ
  quantity : ℤ
  unit_price : ℚ
  line_total : ℚ
  status : String
deriving DecidableEq

/-- Python truthiness of an optional integer id (None and 0 are falsy). -/
def py_truthy (x : Option ℕ) : Bool :=
  match x with
  | none => false
  | some n => !(n == 0)

/-- Python dict insertion: first insertion fixes the position of the key,
later insertions overwrite the value in place. -/
def dict_insert {α : Type} (m : List (String × α)) (k : String) (v : α) :
    List (String × α) :=
  if m.any (fun kv => kv.1 == k) then
    m.map (fun kv => if kv.1 == k then (kv.1, v) else kv)
  else m ++ [(k, v)]

/-- alias_map of upload_order: lower-cased alias name to product id, in
dict (insertion) order. -/
def alias_map (aliases : List ProductAlias) : List (String × ℕ) :=
  aliases.foldl (fun m a => dict_insert m (py_lower a.alias_name) a.product_id) []

/-- product_name_map of upload_order: lower-cased internal name to product
record, in dict (insertion) order. -/
def product_name_map (products : List Product) : List (String × Product) :=
  products.foldl (fun m p => dict_insert m (py_lower p.internal_name) p) []

/-- The CustomerPricing query of upload_order: first row matching both the
customer id and the product id. -/
def find_pricing (pricing : List CustomerPricing) (c p : ℕ) : Option CustomerPricing :=
  pricing.find? (fun pr => pr.customer_id == c && pr.product_id == p)

/-- session.get(Product, pid): primary-key lookup. -/
def find_product (products : List Product) (p : ℕ) : Option Product :=
  products.find? (fun prod => prod.id == p)

/-- The price-resolution block of upload_order (main.py lines 206-220):
a falsy product id keeps the extracted price; otherwise a non-zero
extracted price wins, else a customer override found for a truthy customer
id (`unit_price or pricing.override_price`), and if the price is still zero
the catalog base price. -/
def resolve_price (pricing : List CustomerPricing) (products : List Product)
    (cid pid : Option ℕ) (lp : ℚ) : ℚ :=
  if py_truthy pid then
    let pidv := pid.getD 0
    let up1 :=
      if py_truthy cid then
        match find_pricing pricing (cid.getD 0) pidv with
        | some pr => if lp = 0 then pr.override_price else lp
        | none => lp
      else lp
    if up1 = 0 then
      match find_product products pidv with
      | some prod => prod.base_price
      | none => up1
    else up1
  else lp

/-- The matching block of upload_order (main.py lines 184-204): alias
containment first (first hit in alias_map order wins, empty aliases are
skipped, the matched product is looked up for its internal name), then
literal product-name containment when the product id is still falsy.
Returns (product_id, normalized_name, status). -/
def match_product (cat : Catalog) (lower_text extracted_text : String) :
    Option ℕ × String × String :=
  let first :=
    match (alias_map cat.aliases).find?
        (fun kv => !(kv.1 == "") && is_substring kv.1 lower_text) with
    | some kv =>
        (some kv.2,
          match find_product cat.products kv.2 with
          | some p => p.internal_name
          | none => extracted_text,
          "matched")
    | none => (none, extracted_text, "needs-review")
  if py_truthy first.1 then first
  else
    match (product_name_map cat.products).find?
        (fun kv => !(kv.1 == "") && is_substring kv.1 lower_text) with
    | some kv => (some kv.2.id, kv.2.internal_name, "matched")
    | none => first

/-- The body of the per-row loop of upload_order for a non-blank row:
match, resolve the price, default the quantity (`int(row.get("quantity") or
1)`), and keep a non-zero extracted line_total, else unit_price*quantity. -/
def build_resolved (cat : Catalog) (cid : Option ℕ) (row : ExtractedRow) : ResolvedLine :=
  let t := py_strip row.extracted_text
  let lower := py_lower t
  let m := match_product cat lower t
  let up := resolve_price cat.pricing cat.products cid m.1 row.unit_price
  let q : ℤ := if row.quantity = 0 then 1 else row.quantity
  { extracted_text := t
    normalized_name := m.2.1
    product_id := m.1
    quantity := q
    unit_price := up
    line_total := if row.line_total = 0 then up * (q : ℚ) else row.line_total
    status := m.2.2 }

/-- One iteration of the upload_order loop: rows whose stripped text is
empty are skipped before any matching or pricing. -/
def resolve_line (cat : Catalog) (cid : Option ℕ) (row : ExtractedRow) :
    Option ResolvedLine :=
  if py_strip row.extracted_text == "" then none
  else some (build_resolved cat cid row)

/-- The whole matching/pricing loop of upload_order over the extracted
rows (the spec's matchAndPrice). -/
def match_and_price (cat : Catalog) (cid : Option ℕ) (rows : List ExtractedRow) :
    List ResolvedLine :=
  rows.filterMap (resolve_line cat cid)

/-- Decidable equality of Except values, for evaluating the gateway
models on concrete providers. -/
instance {ε α : Type} [DecidableEq ε] [DecidableEq α] : DecidableEq (Except ε α)
  | Except.error e1, Except.error e2 =>
      match decEq e1 e2 with
      | isTrue h => isTrue (h ▸ rfl)
      | isFalse h => isFalse (fun hh => h (Except.error.inj hh))
  | Except.error _, Except.ok _ => isFalse (fun hh => Except.noConfusion hh)
  | Except.ok _, Except.error _ => isFalse (fun hh => Except.noConfusion hh)
  | Except.ok a1, Except.ok a2 =>
      match decEq a1 a2 with
      | isTrue h => isTrue (h ▸ rfl)
      | isFalse h => isFalse (fun hh => h (Except.ok.inj hh))

/-- An OCR block as far as this pipeline inspects it: its type tag and its
text (LINE/WORD text; empty for structural blocks). -/
structure Block where
  block_type : String := ""
  text : String := ""
deriving DecidableEq

/-- One get_document_analysis call outcome: a transport error
(BotoCoreError/ClientError) or a result page carrying JobStatus, Blocks and
NextToken. -/
inductive PollResponse where
  | transportError : PollResponse
  | page : String → List Block → Option String → PollResponse
deriving DecidableEq

/-- A provider of poll responses: call index and the NextToken the client
sent determine the response. -/
abbrev Poller := ℕ → Option String → PollResponse

/-- Python falsiness of the NextToken (`if not next_token: break`). -/
def tok_falsy (t : Option String) : Bool :=
  match t with
  | none => true
  | some s => s == ""

/-- A response that is neither a success page, a failure page, nor a
transport error (e.g. IN_PROGRESS). -/
def non_terminal (r : PollResponse) : Bool :=
  match r with
  | PollResponse.transportError => false
  | PollResponse.page st _ _ => !(st == "SUCCEEDED") && !(st == "FAILED")

/-- The polling loop of _fetch_textract_blocks_for_pdf (lines 336-358):
at most `fuel` polls; a SUCCEEDED page extends the accumulated blocks and
either stops (falsy NextToken) or continues with the token; FAILED and
transport errors raise OCRException; any other status waits and polls
again; when the budget is exhausted the accumulated blocks are returned. -/
def poll_pdf (p : Poller) (i fuel : ℕ) (acc : List Block) (tok : Option String) :
    Except String (List Block) :=
  match fuel with
  | 0 => Except.ok acc
  | Nat.succ f =>
    match p i tok with
    | PollResponse.transportError => Except.error "Textract get_document_analysis failed"
    | PollResponse.page status blocks nextToken =>
      if status == "SUCCEEDED" then
        if tok_falsy nextToken then Except.ok (acc ++ blocks)
        else poll_pdf p (i + 1) f (acc ++ blocks) nextToken
      else if status == "FAILED" then Except.error "Textract analysis failed."
      else poll_pdf p (i + 1) f acc tok

/-- _fetch_textract_blocks_for_pdf from the point the job exists: 60 polls,
no token, empty accumulator. -/
def fetch_pdf_blocks (p : Poller) : Except String (List Block) :=
  poll_pdf p 0 60 [] none

/-- Python "\n".join. -/
def join_newline : List String → String
  | [] => ""
  | a :: rest => rest.foldl (fun acc t => acc ++ "\n" ++ t) a

/-- _collect_raw_text: newline-joined non-blank LINE texts. -/
def collect_raw_text (blocks : List Block) : String :=
  join_newline
    (blocks.filterMap (fun b =>
      if b.block_type == "LINE" then
        let t := py_strip b.text
        if t == "" then none else some t
      else none))

/-- Number of LINE blocks. -/
def line_count (blocks : List Block) : ℕ :=
  (blocks.filter (fun b => b.block_type == "LINE")).length

/-- _analyze_blocks_score: tables*40 + cells*1.5 + lines*0.4 + quality*20. -/
def analyze_blocks_score (blocks : List Block) : ℚ :=
  ((blocks.filter (fun b => b.block_type == "TABLE")).length : ℚ) * 40 +
    ((blocks.filter (fun b => b.block_type == "CELL")).length : ℚ) * (3 / 2) +
    ((line_count blocks : ℕ) : ℚ) * (2 / 5) +
    ocr_text_quality (collect_raw_text blocks) * 20

/-- _detect_blocks_score: lines*0.8 + quality*30. -/
def detect_blocks_score (blocks : List Block) : ℚ :=
  ((line_count blocks : ℕ) : ℚ) * (4 / 5) +
    ocr_text_quality (collect_raw_text blocks) * 30

/-- The best-of loop of _fetch_textract_blocks_for_image: iterate the
payload outcomes in order, aborting on the first provider error, keeping
the blocks whose score strictly exceeds the best so far (initially [] with
score -1). -/
def best_candidate (score : List Block → ℚ)
    (outcomes : List (Except Unit (List Block))) :
    Except Unit (List Block × ℚ) :=
  outcomes.foldl
    (fun acc oc =>
      match acc, oc with
      | Except.error e, _ => Except.error e
      | Except.ok _, Except.error e => Except.error e
      | Except.ok best, Except.ok blocks =>
          let s := score blocks
          if s > best.2 then Except.ok (blocks, s) else Except.ok best)
    (Except.ok ([], -1))

/-- _fetch_textract_blocks_for_image, with the provider calls supplied as
outcomes: analyze on the original payload (and the preprocessed one when
preprocessing produced truthy bytes), keep the better; accept it when its
raw-text quality is at least 0.55 and it has at least 3 LINE blocks;
otherwise detect on the same payloads (a detect error falls back to the
analyze result), keep the better, and return it only when it is non-empty
and its score strictly exceeds 0.65 times the analyze score. -/
def fetch_image_blocks (has_pre : Bool)
    (analyze_orig analyze_pre detect_orig detect_pre : Except Unit (List Block)) :
    Except Unit (List Block) :=
  match best_candidate analyze_blocks_score
      (if has_pre then [analyze_orig, analyze_pre] else [analyze_orig]) with
  | Except.error _ => Except.error ()
  | Except.ok bestA =>
    if ocr_text_quality (collect_raw_text bestA.1) ≥ 11 / 20 ∧ 3 ≤ line_count bestA.1 then
      Except.ok bestA.1
    else
      match best_candidate detect_blocks_score
          (if has_pre then [detect_orig, detect_pre] else [detect_orig]) with
      | Except.error _ => Except.ok bestA.1
      | Except.ok bestD =>
          if !(bestD.1 == []) ∧ bestD.2 > bestA.2 * (13 / 20) then Except.ok bestD.1
          else Except.ok bestA.1

/-- Characters of the regex class [A-Za-z0-9\\-]: ASCII letters, digits,
a literal backslash and a hyphen. -/
def token_char (c : Char) : Bool :=
  c.isAlpha || c.isDigit || c == '\\' || c == '-'

/-- Remainders after the regex atom `s*` (zero or more LITERAL letters s —
the compiled form of the raw-string `\\s*`), in greedy (longest-first)
backtracking order. -/
def s_star_rems : List Char → List (List Char)
  | 's' :: r => s_star_rems r ++ ['s' :: r]
  | cs => [cs]

/-- Remainders after the optional colon atom `[:：]?`, greedy order. -/
def colon_opt (cs : List Char) : List (List Char) :=
  match cs with
  | c :: r => if c == ':' || c == '：' then [r, cs] else [cs]
  | [] => [[]]

/-- The final capture group `([A-Za-z0-9\\-]+)`: the maximal non-empty run
of token characters. -/
def token_plus (cs : List Char) : Option String :=
  let run := cs.takeWhile token_char
  if run.isEmpty then none else some (String.mk run)

/-- Matcher for the part of the metadata patterns after the label. The
patterns are raw strings containing `\\s`, so the compiled regex is
`\\` `s*` `[:：]?` `\\` `s*` followed by the capture group: a literal
backslash, any number of letter s, an optional (half- or full-width)
colon, another literal backslash and more letter s, then the token. -/
def match_after_label (cs : List Char) : Option String :=
  match cs with
  | '\\' :: r1 =>
      (s_star_rems r1).findSome? (fun r2 =>
        (colon_opt r2).findSome? (fun r3 =>
          match r3 with
          | '\\' :: r4 => (s_star_rems r4).findSome? (fun r5 => token_plus r5)
          | _ => none))
  | _ => none

/-- Try each label alternative at the current position (regex alternation
order), requiring the rest of the pattern to match after it. -/
def match_labels_at (labels : List String) (cs : List Char) : Option String :=
  labels.findSome? (fun l =>
    if l.toList.isPrefixOf cs then match_after_label (cs.drop l.toList.length)
    else none)

/-- re.search for one metadata pattern: leftmost position first. -/
def search_pattern (labels : List String) : List Char → Option String
  | [] => match_labels_at labels []
  | c :: r =>
    match match_labels_at labels (c :: r) with
    | some g => some g
    | none => search_pattern labels r

/-- Label alternatives of the order_number pattern. -/
def order_labels : List String := ["注文番号", "注文No", "注文NO", "受注番号"]

/-- Label alternatives of the delivery_number pattern. -/
def delivery_labels : List String := ["納品番号", "納品No", "伝票No", "伝票番号"]

/-- Label alternatives of the invoice_number pattern. -/
def invoice_labels : List String := ["請求番号", "請求No", "請求NO"]

/-- The document-level identifiers collected by _extract_metadata. -/
structure DocMeta where
  order_number : Option String := none
  delivery_number : Option String := none
  invoice_number : Option String := none
deriving DecidableEq

/-- _extract_metadata: scan LINE blocks in order; for each key not yet
recorded, record the second capture group of the first match. -/
def extract_metadata (blocks : List Block) : DocMeta :=
  blocks.foldl
    (fun meta b =>
      if b.block_type == "LINE" then
        let meta :=
          if meta.order_number.isNone then
            { meta with order_number := search_pattern order_labels b.text.toList }
          else meta
        let meta :=
          if meta.delivery_number.isNone then
            { meta with delivery_number := search_pattern delivery_labels b.text.toList }
          else meta
        if meta.invoice_number.isNone then
          { meta with invoice_number := search_pattern invoice_labels b.text.toList }
        else meta
      else meta)
    {}

/-!  Theorems.  The arithmetic of the embedding is exact rational
arithmetic; the sealed kernel implementations of the rational operations
are made semireducible locally so that concrete runs of the pipeline can
be evaluated by `decide`. -/

section Theorems

attribute [local semireducible] Rat.add Rat.mul Rat.inv Rat.sub

lemma jp_char_not_space (c : Char) (h : jp_char c = true) : py_is_space c = false := by
  simp only [jp_char, Bool.or_eq_true, Bool.and_eq_true, decide_eq_true_eq] at h
  simp only [py_is_space, Bool.or_eq_false_iff, Bool.and_eq_false_iff,
    decide_eq_false_iff_not, not_le, beq_eq_false_iff_ne, ne_eq]
  omega

lemma toList_ne_nil (s : String) (h : ¬ s = "") : s.toList ≠ [] := by
  intro hl
  apply h
  cases s with
  | mk data => cases hl; rfl

lemma ocr_quality_chars_nonneg (l : List Char) : 0 ≤ ocr_quality_chars l := by
  unfold ocr_quality_chars
  split
  · exact le_refl 0
  · positivity

lemma ocr_quality_insert_le (A B : List Char) (c : Char)
    (hc1 : jp_char c = false) (hc2 : py_is_space c = false) :
    ocr_quality_chars (A ++ c :: B) ≤ ocr_quality_chars (A ++ B) := by
  have hfa : (A ++ c :: B).filter (fun x => !(py_is_space x)) =
      A.filter (fun x => !(py_is_space x)) ++ c :: B.filter (fun x => !(py_is_space x)) := by
    simp [List.filter_append, List.filter_cons, hc2]
  have hfb : (A ++ B).filter (fun x => !(py_is_space x)) =
      A.filter (fun x => !(py_is_space x)) ++ B.filter (fun x => !(py_is_space x)) := by
    simp [List.filter_append]
  set fA := A.filter (fun x => !(py_is_space x)) with hfA
  set fB := B.filter (fun x => !(py_is_space x)) with hfB
  have hga : (fA ++ c :: fB).filter (fun x => jp_char x) =
      fA.filter (fun x => jp_char x) ++ fB.filter (fun x => jp_char x) := by
    simp [List.filter_append, List.filter_cons, hc1]
  have hgb : (fA ++ fB).filter (fun x => jp_char x) =
      fA.filter (fun x => jp_char x) ++ fB.filter (fun x => jp_char x) := by
    simp [List.filter_append]
  unfold ocr_quality_chars
  rw [hfa, hfb, hga, hgb]
  set g := (fA.filter (fun x => jp_char x) ++ fB.filter (fun x => jp_char x)).length with hg
  have hne : ((fA ++ c :: fB).isEmpty) = false := by
    simp [List.isEmpty_iff]
  rw [hne]
  cases hmt : (fA ++ fB).isEmpty with
  | true =>
    have hfa0 : fA = [] := by
      rcases List.append_eq_nil.mp (List.isEmpty_iff.mp hmt) with ⟨h1, h2⟩
      exact h1
    have hfb0 : fB = [] := by
      rcases List.append_eq_nil.mp (List.isEmpty_iff.mp hmt) with ⟨h1, h2⟩
      exact h2
    simp only [Bool.false_eq_true, if_false, if_true]
    have : g = 0 := by
      rw [hg, hfa0, hfb0]
      simp
    rw [this]
    simp
  | false =>
    simp only [Bool.false_eq_true, if_false]
    have hlen1 : (fA ++ c :: fB).length = (fA ++ fB).length + 1 := by
      simp
      omega
    have hpos : 1 ≤ (fA ++ fB).length := by
      have := List.isEmpty_iff.not.mp (by rw [hmt]; exact Bool.false_ne_true)
      have hne2 : (fA ++ fB) ≠ [] := this
      have := List.length_pos.mpr hne2
      omega
    rw [hlen1]
    have hmax1 : max 1 ((fA ++ fB).length + 1) = (fA ++ fB).length + 1 := by omega
    have hmax2 : max 1 ((fA ++ fB).length) = (fA ++ fB).length := by omega
    rw [hmax1, hmax2]
    set n := (fA ++ fB).length with hn
    have hnq : (0 : ℚ) < (n : ℚ) := by
      have : (1 : ℚ) ≤ (n : ℚ) := by exact_mod_cast hpos
      linarith
    have hnq1 : (0 : ℚ) < ((n + 1 : ℕ) : ℚ) := by positivity
    rw [div_le_div_iff₀ hnq1 hnq]
    have hgq : (0 : ℚ) ≤ (g : ℚ) := Nat.cast_nonneg g
    have : ((n : ℕ) : ℚ) ≤ ((n + 1 : ℕ) : ℚ) := by exact_mod_cast Nat.le_succ n
    nlinarith

/-- C7: textQuality is 0 on an empty or all-whitespace string, 1 on a
non-empty string made only of CJK/alphanumeric characters, and inserting a
non-matching, non-whitespace character anywhere never increases it. -/
theorem text_quality_bounds (s t a b : String) (c : Char)
    (hs : ∀ ch ∈ s.toList, py_is_space ch = true)
    (ht1 : ¬ t = "") (ht2 : ∀ ch ∈ t.toList, jp_char ch = true)
    (hc1 : jp_char c = false) (hc2 : py_is_space c = false) :
    ocr_text_quality s = 0 ∧ ocr_text_quality t = 1 ∧
      ocr_text_quality (a ++ String.singleton c ++ b) ≤ ocr_text_quality (a ++ b) := by
  refine ⟨?_, ?_, ?_⟩
  · have h1 : s.toList.filter (fun ch => !(py_is_space ch)) = [] := by
      rw [List.filter_eq_nil_iff]
      intro ch hch
      simp [hs ch hch]
    unfold ocr_text_quality ocr_quality_chars
    rw [h1]
    rfl
  · have hfil : t.toList.filter (fun ch => !(py_is_space ch)) = t.toList := by
      rw [List.filter_eq_self]
      intro ch hch
      simp [jp_char_not_space ch (ht2 ch hch)]
    have hgood : t.toList.filter (fun ch => jp_char ch) = t.toList := by
      rw [List.filter_eq_self]
      intro ch hch
      exact ht2 ch hch
    have hnil : t.toList ≠ [] := toList_ne_nil t ht1
    have hpos : 1 ≤ t.toList.length := List.length_pos.mpr hnil
    unfold ocr_text_quality ocr_quality_chars
    rw [hfil, hgood]
    have hemp : t.toList.isEmpty = false := by
      cases hl : t.toList with
      | nil => exact absurd hl hnil
      | cons x xs => rfl
    rw [hemp]
    simp only [Bool.false_eq_true, if_false]
    have hmax : max 1 t.toList.length = t.toList.length := by omega
    rw [hmax]
    apply div_self
    have : (0 : ℚ) < (t.toList.length : ℚ) := by exact_mod_cast hpos
    linarith
  · have hdata : (a ++ String.singleton c ++ b).toList = a.toList ++ c :: b.toList := by
      show (a ++ String.singleton c ++ b).data = a.data ++ c :: b.data
      rw [String.data_append, String.data_append]
      simp [String.singleton]
    have hdata2 : (a ++ b).toList = a.toList ++ b.toList := by
      show (a ++ b).data = a.data ++ b.data
      rw [String.data_append]
    unfold ocr_text_quality
    rw [hdata, hdata2]
    exact ocr_quality_insert_le a.toList b.toList c hc1 hc2

/-- Witness for C7 at concrete inputs. -/
theorem text_quality_bounds_witness :
    ocr_text_quality " \t" = 0 ∧ ocr_text_quality "ネジa1" = 1 ∧
      ocr_text_quality ("ab" ++ String.singleton '!' ++ "cd") ≤ ocr_text_quality ("ab" ++ "cd") :=
  text_quality_bounds " \t" "ネジa1" "ab" "cd" '!'
    (by decide) (by decide) (by decide) (by decide) (by decide)

lemma find_header_go_append (rest : List (List String)) :
    ∀ (t : List (List String)) (idx br : ℕ) (bm : Mapping),
      (∃ k, k < t.length ∧ 2 ≤ (row_mapping (t.getD k [])).length) →
      find_header_go (t ++ rest) idx br bm = find_header_go t idx br bm := by
  intro t
  induction t with
  | nil =>
    intro idx br bm h
    obtain ⟨k, hk, _⟩ := h
    simp at hk
  | cons row tl ih =>
    intro idx br bm h
    by_cases h2 : 2 ≤ (row_mapping row).length
    · simp only [List.cons_append, find_header_go]
      rw [if_pos h2, if_pos h2]
    · obtain ⟨k, hk, hk2⟩ := h
      have hk0 : k ≠ 0 := by
        intro h0
        subst h0
        rw [List.getD_cons_zero] at hk2
        exact h2 hk2
      obtain ⟨j, rfl⟩ : ∃ j, k = j + 1 := ⟨k - 1, by omega⟩
      simp only [List.cons_append, find_header_go]
      rw [if_neg h2, if_neg h2]
      apply ih
      refine ⟨j, by simpa using hk, ?_⟩
      rw [List.getD_cons_succ] at hk2
      exact hk2

lemma find_header_go_lt :
    ∀ (t : List (List String)) (idx br : ℕ) (bm : Mapping),
      br < idx + t.length → (find_header_go t idx br bm).1 < idx + t.length := by
  intro t
  induction t with
  | nil =>
    intro idx br bm h
    simpa [find_header_go] using h
  | cons row tl ih =>
    intro idx br bm h
    simp only [find_header_go, List.length_cons]
    simp only [List.length_cons] at h
    by_cases hgt : (row_mapping row).length > bm.length
    · simp only [if_pos hgt]
      by_cases hstop : 2 ≤ (row_mapping row).length
      · simp only [if_pos hstop]
        omega
      · simp only [if_neg hstop]
        have := ih (idx + 1) idx (row_mapping row) (by omega)
        omega
    · simp only [if_neg hgt]
      by_cases hstop : 2 ≤ (row_mapping row).length
      · simp only [if_pos hstop]
        omega
      · simp only [if_neg hstop]
        have := ih (idx + 1) br bm (by omega)
        omega

/-- C8: the header-row search stops early at the first row mapping at
least two fields (rows appended after a table containing such a row do not
change the result), and the returned row index is within the table. The
embedding is a pure total function of the table, mirroring that the Python
loop only reads the table it is given. -/
theorem find_header_row_bounded (t rest t2 : List (List String)) (k : ℕ)
    (hk : k < t.length) (h2 : 2 ≤ (row_mapping (t.getD k [])).length)
    (hne : ¬ t2 = []) :
    find_header_row (t ++ rest) = find_header_row t ∧
      (find_header_row t2).1 < t2.length := by
  constructor
  · exact find_header_go_append rest t 0 0 [] ⟨k, hk, h2⟩
  · have hpos : 0 < t2.length := List.length_pos.mpr hne
    have := find_header_go_lt t2 0 0 [] (by omega)
    simpa [find_header_row] using this

/-- Witness for C8 at a concrete table whose first row maps the product
and quantity fields. -/
theorem find_header_row_bounded_witness :
    find_header_row ([["品名", "数量"]] ++ [["x"]]) = find_header_row [["品名", "数量"]] ∧
      (find_header_row [["y"]]).1 < [["y"]].length :=
  find_header_row_bounded [["品名", "数量"]] [["x"]] [["y"]] 0
    (by decide) (by decide) (by decide)

/-- C5 (amended): the quantity of a mapped table row is the truncated
numeric value of the quantity cell when that value is non-zero (negative
values included), and defaults to 1 exactly when the value is unparseable
or parses to zero. -/
theorem row_quantity_spec (m : Mapping) (j : ℕ) (row1 row2 row3 : List String)
    (hq : mlookup m "quantity" = some j)
    (h1 : 0 < trunc_q (parse_number (row1.getD j "")))
    (h2 : trunc_q (parse_number (row2.getD j "")) = 0)
    (h3 : trunc_q (parse_number (row3.getD j "")) < 0) :
    row_quantity m row1 = trunc_q (parse_number (row1.getD j "")) ∧
      row_quantity m row2 = 1 ∧
      row_quantity m row3 = trunc_q (parse_number (row3.getD j "")) := by
  unfold row_quantity
  rw [hq]
  refine ⟨?_, ?_, ?_⟩
  · simp only []
    rw [if_neg (by omega)]
  · simp only []
    rw [if_pos h2]
  · simp only []
    rw [if_neg (by omega)]

/-- Witness for C5 at concrete cells: "2" is kept, "x" defaults to 1,
"-2" is kept negative. -/
theorem row_quantity_spec_witness :
    row_quantity [("quantity", 0)] ["2"] = trunc_q (parse_number "2") ∧
      row_quantity [("quantity", 0)] ["x"] = 1 ∧
      row_quantity [("quantity", 0)] ["-2"] = trunc_q (parse_number "-2") :=
  row_quantity_spec [("quantity", 0)] 0 ["2"] ["x"] ["-2"]
    (by decide) (by decide) (by decide) (by decide)

/-- C5 counterexample: the line builder emits quantity -2 (not the claimed
default 1) for a quantity cell reading "-2". -/
theorem row_quantity_negative_kept :
    (lines_from_tables [[["品名", "数量"], ["ネジ", "-2"]]]).map
        (fun l => l.quantity) = [-2] ∧ ¬ ((-2 : ℤ) = 1) := by
  constructor
  · decide
  · decide

lemma resolve_line_eq_some (cat : Catalog) (cid : Option ℕ) (row : ExtractedRow)
    (r : ResolvedLine) (h : resolve_line cat cid row = some r) :
    r = build_resolved cat cid row := by
  unfold resolve_line at h
  split at h
  · exact absurd h (by simp)
  · exact (Option.some.inj h).symm

lemma build_resolved_product_id (cat : Catalog) (cid : Option ℕ) (row : ExtractedRow) :
    (build_resolved cat cid row).product_id =
      (match_product cat (py_lower (py_strip row.extracted_text))
        (py_strip row.extracted_text)).1 := rfl

lemma build_resolved_unit_price (cat : Catalog) (cid : Option ℕ) (row : ExtractedRow) :
    (build_resolved cat cid row).unit_price =
      resolve_price cat.pricing cat.products cid
        (match_product cat (py_lower (py_strip row.extracted_text))
          (py_strip row.extracted_text)).1 row.unit_price := rfl

lemma build_resolved_line_total (cat : Catalog) (cid : Option ℕ) (row : ExtractedRow) :
    (build_resolved cat cid row).line_total =
      if row.line_total = 0 then
        (build_resolved cat cid row).unit_price * ((build_resolved cat cid row).quantity : ℚ)
      else row.line_total := rfl

lemma build_resolved_status (cat : Catalog) (cid : Option ℕ) (row : ExtractedRow) :
    (build_resolved cat cid row).status =
      (match_product cat (py_lower (py_strip row.extracted_text))
        (py_strip row.extracted_text)).2.2 := rfl

lemma build_resolved_normalized_name (cat : Catalog) (cid : Option ℕ) (row : ExtractedRow) :
    (build_resolved cat cid row).normalized_name =
      (match_product cat (py_lower (py_strip row.extracted_text))
        (py_strip row.extracted_text)).2.1 := rfl

lemma py_truthy_some (n : ℕ) (h : ¬ n = 0) : py_truthy (some n) = true := by
  simp [py_truthy, h]

lemma resolve_price_nonzero (pricing : List CustomerPricing) (products : List Product)
    (cid : Option ℕ) (p : ℕ) (lp : ℚ) (hp : ¬ p = 0) (hlp : ¬ lp = 0) :
    resolve_price pricing products cid (some p) lp = lp := by
  have htp := py_truthy_some p hp
  cases hcb : py_truthy cid with
  | true =>
    cases hf : find_pricing pricing (cid.getD 0) p with
    | none => simp [resolve_price, htp, hcb, hf, hlp]
    | some pr => simp [resolve_price, htp, hcb, hf, hlp]
  | false => simp [resolve_price, htp, hcb, hlp]

lemma resolve_price_override (pricing : List CustomerPricing) (products : List Product)
    (c p : ℕ) (pr : CustomerPricing) (hp : ¬ p = 0) (hc : ¬ c = 0)
    (hfind : find_pricing pricing c p = some pr) (hnz : ¬ pr.override_price = 0) :
    resolve_price pricing products (some c) (some p) 0 = pr.override_price := by
  have htp := py_truthy_some p hp
  have htc := py_truthy_some c hc
  simp [resolve_price, htp, htc, hfind, hnz]

lemma resolve_price_base (pricing : List CustomerPricing) (products : List Product)
    (c p : ℕ) (prod : Product) (hp : ¬ p = 0) (hc : ¬ c = 0)
    (hfind : find_pricing pricing c p = none) (hprod : find_product products p = some prod) :
    resolve_price pricing products (some c) (some p) 0 = prod.base_price := by
  have htp := py_truthy_some p hp
  have htc := py_truthy_some c hc
  simp [resolve_price, htp, htc, hfind, hprod]

/-- C2 (amended): for a resolved line with a matched (non-zero) product id:
a non-zero unit_price already on the extracted line wins; with a zero line
price and a NON-ZERO customer override, the override is used; with a zero
line price and no override row, the catalog base price is used (a zero
override also falls through to the base price, see the counterexample). -/
theorem price_resolution_precedence (cat catB : Catalog) (c pidv : ℕ)
    (rowA rowB rowC : ExtractedRow) (rA rB rC : ResolvedLine)
    (pr : CustomerPricing) (prod : Product)
    (hc : ¬ c = 0) (hp : ¬ pidv = 0)
    (hresA : resolve_line cat (some c) rowA = some rA)
    (hpidA : rA.product_id = some pidv) (hlpA : ¬ rowA.unit_price = 0)
    (hresB : resolve_line cat (some c) rowB = some rB)
    (hpidB : rB.product_id = some pidv) (hlpB : rowB.unit_price = 0)
    (hov : find_pricing cat.pricing c pidv = some pr) (hovnz : ¬ pr.override_price = 0)
    (hresC : resolve_line catB (some c) rowC = some rC)
    (hpidC : rC.product_id = some pidv) (hlpC : rowC.unit_price = 0)
    (hovN : find_pricing catB.pricing c pidv = none)
    (hprod : find_product catB.products pidv = some prod) :
    rA.unit_price = rowA.unit_price ∧ rB.unit_price = pr.override_price ∧
      rC.unit_price = prod.base_price := by
  have eA := resolve_line_eq_some cat (some c) rowA rA hresA
  have eB := resolve_line_eq_some cat (some c) rowB rB hresB
  have eC := resolve_line_eq_some catB (some c) rowC rC hresC
  subst eA
  subst eB
  subst eC
  rw [build_resolved_product_id] at hpidA hpidB
  rw [build_resolved_product_id] at hpidC
  refine ⟨?_, ?_, ?_⟩
  · rw [build_resolved_unit_price, hpidA]
    exact resolve_price_nonzero cat.pricing cat.products (some c) pidv rowA.unit_price hp hlpA
  · rw [build_resolved_unit_price, hpidB, hlpB]
    exact resolve_price_override cat.pricing cat.products c pidv pr hp hc hov hovnz
  · rw [build_resolved_unit_price, hpidC, hlpC]
    exact resolve_price_base catB.pricing catB.products c pidv prod hp hc hovN hprod

/-- Witness for C2 at a concrete catalog: line price 7 is kept; a zero
line price takes the override 99 over the base price 10; with no override
row the base price 10 is used. -/
theorem price_resolution_precedence_witness :
    ({ extracted_text := "screw", normalized_name := "screw", product_id := some 1,
       quantity := 1, unit_price := 7, line_total := 7, status := "matched" } :
        ResolvedLine).unit_price =
      ({ extracted_text := "screw", quantity := 1, unit_price := 7, line_total := 0 } :
        ExtractedRow).unit_price ∧
    ({ extracted_text := "screw", normalized_name := "screw", product_id := some 1,
       quantity := 1, unit_price := 99, line_total := 99, status := "matched" } :
        ResolvedLine).unit_price =
      ({ customer_id := 5, product_id := 1, override_price := 99 } :
        CustomerPricing).override_price ∧
    ({ extracted_text := "screw", normalized_name := "screw", product_id := some 1,
       quantity := 1, unit_price := 10, line_total := 10, status := "matched" } :
        ResolvedLine).unit_price =
      ({ id := 1, internal_name := "screw", base_price := 10 } : Product).base_price :=
  price_resolution_precedence
    ⟨[], [⟨1, "screw", 10⟩], [⟨5, 1, 99⟩]⟩ ⟨[], [⟨1, "screw", 10⟩], []⟩ 5 1
    ⟨"screw", 1, 7, 0, "", "", "", ""⟩ ⟨"screw", 1, 0, 0, "", "", "", ""⟩
    ⟨"screw", 1, 0, 0, "", "", "", ""⟩
    ⟨"screw", "screw", some 1, 1, 7, 7, "matched"⟩
    ⟨"screw", "screw", some 1, 1, 99, 99, "matched"⟩
    ⟨"screw", "screw", some 1, 1, 10, 10, "matched"⟩
    ⟨5, 1, 99⟩ ⟨1, "screw", 10⟩
    (by decide) (by decide) (by decide) (by decide) (by decide) (by decide)
    (by decide) (by decide) (by decide) (by decide) (by decide) (by decide)
    (by decide) (by decide) (by decide)

/-- C2 counterexample: a customer override row exists with value 0, the
line price is 0, yet the resolved price is the base price 10, not the
override — the claim's "an override exists implies it is used" fails. -/
theorem price_resolution_zero_override :
    (match_and_price ⟨[], [⟨1, "screw", 10⟩], [⟨5, 1, 0⟩]⟩ (some 5)
        [⟨"screw", 1, 0, 0, "", "", "", ""⟩]).map ResolvedLine.unit_price = [10] ∧
      find_pricing [⟨5, 1, 0⟩] 5 1 =
        some { customer_id := 5, product_id := 1, override_price := 0 } ∧
      ¬ ((10 : ℚ) = 0) := by
  refine ⟨by decide, by decide, by decide⟩

/-- C6 (amended): line_total is recomputed as unit_price * quantity
exactly when the extraction stage carried a zero line_total; a non-zero
carried line_total is kept unchanged (even when the price was defaulted,
see the counterexample). -/
theorem line_total_recompute (cat : Catalog) (cid : Option ℕ)
    (rowA rowB : ExtractedRow) (rA rB : ResolvedLine)
    (hA : resolve_line cat cid rowA = some rA) (hltA : rowA.line_total = 0)
    (hB : resolve_line cat cid rowB = some rB) (hltB : ¬ rowB.line_total = 0) :
    rA.line_total = rA.unit_price * (rA.quantity : ℚ) ∧
      rB.line_total = rowB.line_total := by
  have eA := resolve_line_eq_some cat cid rowA rA hA
  have eB := resolve_line_eq_some cat cid rowB rB hB
  subst eA
  subst eB
  constructor
  · rw [build_resolved_line_total, if_pos hltA]
  · rw [build_resolved_line_total, if_neg hltB]

/-- Witness for C6: with base price 10 and quantity 2, a zero carried
line_total becomes 20, a carried 55 stays 55. -/
theorem line_total_recompute_witness :
    ({ extracted_text := "screw", normalized_name := "screw", product_id := some 1,
       quantity := 2, unit_price := 10, line_total := 20, status := "matched" } :
        ResolvedLine).line_total =
      ({ extracted_text := "screw", normalized_name := "screw", product_id := some 1,
         quantity := 2, unit_price := 10, line_total := 20, status := "matched" } :
          ResolvedLine).unit_price *
        ((({ extracted_text := "screw", normalized_name := "screw", product_id := some 1,
             quantity := 2, unit_price := 10, line_total := 20, status := "matched" } :
              ResolvedLine).quantity : ℤ) : ℚ) ∧
    ({ extracted_text := "screw", normalized_name := "screw", product_id := some 1,
       quantity := 2, unit_price := 10, line_total := 55, status := "matched" } :
        ResolvedLine).line_total =
      ({ extracted_text := "screw", quantity := 2, unit_price := 0, line_total := 55 } :
        ExtractedRow).line_total :=
  line_total_recompute ⟨[], [⟨1, "screw", 10⟩], []⟩ none
    ⟨"screw", 2, 0, 0, "", "", "", ""⟩ ⟨"screw", 2, 0, 55, "", "", "", ""⟩
    ⟨"screw", "screw", some 1, 2, 10, 20, "matched"⟩
    ⟨"screw", "screw", some 1, 2, 10, 55, "matched"⟩
    (by decide) (by decide) (by decide) (by decide)

/-- C6 counterexample: the price was defaulted to the base price 10, the
extraction stage carried line_total 55, and the resolved line keeps 55
instead of recomputing 10 * 2 = 20. -/
theorem line_total_carried_not_recomputed :
    (match_and_price ⟨[], [⟨1, "screw", 10⟩], []⟩ none
        [⟨"screw", 2, 0, 55, "", "", "", ""⟩]).map
      (fun r => (r.unit_price, r.quantity, r.line_total)) = [(10, 2, 55)] ∧
      ¬ ((55 : ℚ) = 10 * 2) := by
  refine ⟨by decide, by decide⟩

lemma mem_dict_insert {α : Type} (m : List (String × α)) (k : String) (v : α)
    (kv : String × α) (h : kv ∈ dict_insert m k v) : kv ∈ m ∨ kv.1 = k := by
  unfold dict_insert at h
  split at h
  · obtain ⟨kv0, hkv0, heq⟩ := List.mem_map.mp h
    by_cases hk : (kv0.1 == k) = true
    · rw [if_pos hk] at heq
      right
      rw [← heq]
      exact eq_of_beq hk
    · rw [if_neg hk] at heq
      left
      rw [← heq]
      exact hkv0
  · rcases List.mem_append.mp h with h1 | h2
    · exact Or.inl h1
    · right
      rw [List.mem_singleton.mp h2]

lemma mem_fold_dict {α β : Type} (key : β → String) (val : β → α) :
    ∀ (l : List β) (m0 : List (String × α)) (kv : String × α),
      kv ∈ l.foldl (fun m bb => dict_insert m (key bb) (val bb)) m0 →
      kv ∈ m0 ∨ ∃ bb ∈ l, kv.1 = key bb := by
  intro l
  induction l with
  | nil =>
    intro m0 kv h
    simp only [List.foldl_nil] at h
    exact Or.inl h
  | cons x xs ih =>
    intro m0 kv h
    simp only [List.foldl_cons] at h
    rcases ih (dict_insert m0 (key x) (val x)) kv h with h1 | h2
    · rcases mem_dict_insert m0 (key x) (val x) kv h1 with hm | hk
      · exact Or.inl hm
      · exact Or.inr ⟨x, by simp, hk⟩
    · obtain ⟨bb, hbb, hkey⟩ := h2
      exact Or.inr ⟨bb, by simp [hbb], hkey⟩

lemma match_product_no_hit (cat : Catalog) (lower extracted : String)
    (ha : ∀ al ∈ cat.aliases, is_substring (py_lower al.alias_name) lower = false)
    (hp : ∀ p ∈ cat.products, is_substring (py_lower p.internal_name) lower = false) :
    match_product cat lower extracted = (none, extracted, "needs-review") := by
  have h1 : (alias_map cat.aliases).find?
      (fun kv => !(kv.1 == "") && is_substring kv.1 lower) = none := by
    rw [List.find?_eq_none]
    intro kv hkv
    unfold alias_map at hkv
    rcases mem_fold_dict (fun a : ProductAlias => py_lower a.alias_name)
        (fun a : ProductAlias => a.product_id)
        cat.aliases [] kv hkv with h | ⟨al, hal, hkey⟩
    · simp at h
    · simp [hkey, ha al hal]
  have h2 : (product_name_map cat.products).find?
      (fun kv => !(kv.1 == "") && is_substring kv.1 lower) = none := by
    rw [List.find?_eq_none]
    intro kv hkv
    unfold product_name_map at hkv
    rcases mem_fold_dict (fun p : Product => py_lower p.internal_name)
        (fun p : Product => p)
        cat.products [] kv hkv with h | ⟨p, hpmem, hkey⟩
    · simp at h
    · simp [hkey, hp p hpmem]
  simp [match_product, h1, h2, py_truthy]

/-- C9: when no (lower-cased) catalog alias and no catalog internal name
occurs in the line's lower-cased text, the resolved line has status
needs-review, no product id, and normalized_name equal to the extracted
text (already stripped, as every extraction-stage row is). -/
theorem unmatched_line_needs_review (cat : Catalog) (cid : Option ℕ)
    (row : ExtractedRow)
    (hne : ¬ py_strip row.extracted_text = "")
    (hstrip : py_strip row.extracted_text = row.extracted_text)
    (ha : ∀ al ∈ cat.aliases,
      is_substring (py_lower al.alias_name) (py_lower row.extracted_text) = false)
    (hp : ∀ p ∈ cat.products,
      is_substring (py_lower p.internal_name) (py_lower row.extracted_text) = false) :
    ∃ r, resolve_line cat cid row = some r ∧ r.status = "needs-review" ∧
      r.product_id = none ∧ r.normalized_name = row.extracted_text := by
  have hm : match_product cat (py_lower (py_strip row.extracted_text))
      (py_strip row.extracted_text) = (none, py_strip row.extracted_text, "needs-review") := by
    rw [hstrip]
    exact match_product_no_hit cat (py_lower row.extracted_text) row.extracted_text ha hp
  have hbeq : (py_strip row.extracted_text == "") = false := by
    simp [hne]
  refine ⟨build_resolved cat cid row, ?_, ?_, ?_, ?_⟩
  · unfold resolve_line
    rw [hbeq]
    simp
  · rw [build_resolved_status, hm]
  · rw [build_resolved_product_id, hm]
  · rw [build_resolved_normalized_name, hm, hstrip]

/-- Witness for C9: "washer" matches neither the alias "bolt" nor the
product name "nut". -/
theorem unmatched_line_needs_review_witness :
    ∃ r, resolve_line ⟨[⟨"bolt", 1⟩], [⟨1, "nut", 5⟩], []⟩ none
        ⟨"washer", 1, 0, 0, "", "", "", ""⟩ = some r ∧
      r.status = "needs-review" ∧ r.product_id = none ∧
      r.normalized_name = "washer" :=
  unmatched_line_needs_review ⟨[⟨"bolt", 1⟩], [⟨1, "nut", 5⟩], []⟩ none
    ⟨"washer", 1, 0, 0, "", "", "", ""⟩
    (by decide) (by decide) (by decide) (by decide)

lemma resolve_line_isSome (cat : Catalog) (cid : Option ℕ) (row : ExtractedRow) :
    (resolve_line cat cid row).isSome = !(py_strip row.extracted_text == "") := by
  unfold resolve_line
  cases h : (py_strip row.extracted_text == "") with
  | true => simp [h]
  | false => simp [h]

/-- C10: rows whose stripped text is blank are skipped before matching or
pricing, so the number of resolved lines equals the number of extracted
rows with non-blank text. -/
theorem blank_rows_skipped (cat : Catalog) (cid : Option ℕ) (rows : List ExtractedRow) :
    (match_and_price cat cid rows).length =
      (rows.filter (fun r => !(py_strip r.extracted_text == ""))).length := by
  induction rows with
  | nil => rfl
  | cons r rs ih =>
    cases hr : resolve_line cat cid r with
    | none =>
      have hb : (py_strip r.extracted_text == "") = true := by
        have h := resolve_line_isSome cat cid r
        rw [hr] at h
        simp at h
        simpa using h
      simp only [match_and_price, List.filterMap_cons, hr, List.filter_cons, hb,
        Bool.not_true] at ih ⊢
      simpa using ih
    | some v =>
      have hb : (py_strip r.extracted_text == "") = false := by
        have h := resolve_line_isSome cat cid r
        rw [hr] at h
        simp at h
        simpa using h
      simp only [match_and_price, List.filterMap_cons, hr, List.filter_cons, hb,
        Bool.not_false] at ih ⊢
      simpa using ih

lemma poll_pdf_succ (p : Poller) (i f : ℕ) (acc : List Block) (tok : Option String) :
    poll_pdf p i (f + 1) acc tok =
      match p i tok with
      | PollResponse.transportError => Except.error "Textract get_document_analysis failed"
      | PollResponse.page status blocks nextToken =>
        if status == "SUCCEEDED" then
          if tok_falsy nextToken then Except.ok (acc ++ blocks)
          else poll_pdf p (i + 1) f (acc ++ blocks) nextToken
        else if status == "FAILED" then Except.error "Textract analysis failed."
        else poll_pdf p (i + 1) f acc tok := rfl

lemma poll_skip (p : Poller) :
    ∀ (k i n : ℕ) (acc : List Block) (tok : Option String),
      (∀ j, j < k → non_terminal (p (i + j) tok) = true) → k ≤ n →
      poll_pdf p i n acc tok = poll_pdf p (i + k) (n - k) acc tok := by
  intro k
  induction k with
  | zero =>
    intro i n acc tok h hk
    simp
  | succ kk ih =>
    intro i n acc tok h hk
    obtain ⟨m, rfl⟩ : ∃ m, n = m + 1 := ⟨n - 1, by omega⟩
    have h0 := h 0 (by omega)
    rw [show i + 0 = i from by omega] at h0
    cases hpi : p i tok with
    | transportError =>
      rw [hpi] at h0
      simp [non_terminal] at h0
    | page st b nt =>
      rw [hpi] at h0
      simp only [non_terminal, Bool.and_eq_true, Bool.not_eq_eq_eq_not, Bool.not_true] at h0
      rw [poll_pdf_succ, hpi]
      simp only [h0.1, h0.2, Bool.false_eq_true, if_false]
      rw [show i + (kk + 1) = (i + 1) + kk from by omega,
        show m + 1 - (kk + 1) = m - kk from by omega]
      apply ih
      · intro j hj
        have := h (j + 1) (by omega)
        rwa [show i + (j + 1) = i + 1 + j from by omega] at this
      · omega

/-- C1 (amended): the async gateway polls at most 60 times; with
IN_PROGRESS for the first 59 polls and a final SUCCEEDED page on the 60th
it returns that page's blocks; a SUCCEEDED page with a continuation token
is followed within the same budget and the pages' blocks accumulate; and
when no poll terminates within the 60-poll budget the loop exits and the
blocks accumulated so far (empty here) are returned — no error is raised
on timeout. -/
theorem pdf_poll_budget (p q r : Poller) (k : ℕ) (B B1 B2 : List Block) (tk : String)
    (hp1 : ∀ i, i < 59 → p i none = PollResponse.page "IN_PROGRESS" [] none)
    (hp2 : p 59 none = PollResponse.page "SUCCEEDED" B none)
    (hq : ∀ i, i < 60 → non_terminal (q i none) = true)
    (hk : k + 1 < 60)
    (hr1 : ∀ i, i < k → non_terminal (r i none) = true)
    (hr2 : r k none = PollResponse.page "SUCCEEDED" B1 (some tk))
    (htk : ¬ tk = "")
    (hr3 : r (k + 1) (some tk) = PollResponse.page "SUCCEEDED" B2 none) :
    fetch_pdf_blocks p = Except.ok B ∧
      fetch_pdf_blocks r = Except.ok (B1 ++ B2) ∧
      fetch_pdf_blocks q = Except.ok [] := by
  refine ⟨?_, ?_, ?_⟩
  · unfold fetch_pdf_blocks
    rw [poll_skip p 59 0 60 [] none ?_ (by omega)]
    · rw [show (0 : ℕ) + 59 = 59 from by omega, show (60 : ℕ) - 59 = 0 + 1 from by omega]
      rw [poll_pdf_succ, hp2]
      simp [tok_falsy]
    · intro j hj
      rw [show (0 : ℕ) + j = j from by omega, hp1 j hj]
      rfl
  · unfold fetch_pdf_blocks
    rw [poll_skip r k 0 60 [] none ?_ (by omega)]
    · rw [show (0 : ℕ) + k = k from by omega,
        show (60 : ℕ) - k = (58 - k) + 1 + 1 from by omega]
      rw [poll_pdf_succ, hr2]
      have hfal : tok_falsy (some tk) = false := by simp [tok_falsy, htk]
      simp only [beq_self_eq_true, if_true, hfal, Bool.false_eq_true, if_false]
      rw [poll_pdf_succ, hr3]
      simp [tok_falsy]
    · intro j hj
      rw [show (0 : ℕ) + j = j from by omega]
      exact hr1 j hj
  · unfold fetch_pdf_blocks
    rw [poll_skip q 60 0 60 [] none ?_ (by omega)]
    · rfl
    · intro j hj
      rw [show (0 : ℕ) + j = j from by omega]
      exact hq j hj

/-- Witness for C1 at concrete pollers: success on the 60th poll, a
two-page continuation after 3 waits, and a 60-poll timeout. -/
theorem pdf_poll_budget_witness :
    fetch_pdf_blocks (fun i _ =>
        if i < 59 then PollResponse.page "IN_PROGRESS" [] none
        else PollResponse.page "SUCCEEDED" [{ block_type := "LINE", text := "x" }] none) =
      Except.ok [{ block_type := "LINE", text := "x" }] ∧
    fetch_pdf_blocks (fun i _ =>
        if i < 3 then PollResponse.page "IN_PROGRESS" [] none
        else if i == 3 then
          PollResponse.page "SUCCEEDED" [{ block_type := "LINE", text := "a" }] (some "t")
        else PollResponse.page "SUCCEEDED" [{ block_type := "LINE", text := "b" }] none) =
      Except.ok ([{ block_type := "LINE", text := "a" }] ++
        [{ block_type := "LINE", text := "b" }]) ∧
    fetch_pdf_blocks (fun _ _ => PollResponse.page "WAITING" [] none) = Except.ok [] :=
  pdf_poll_budget
    (fun i _ =>
        if i < 59 then PollResponse.page "IN_PROGRESS" [] none
        else PollResponse.page "SUCCEEDED" [{ block_type := "LINE", text := "x" }] none)
    (fun _ _ => PollResponse.page "WAITING" [] none)
    (fun i _ =>
        if i < 3 then PollResponse.page "IN_PROGRESS" [] none
        else if i == 3 then
          PollResponse.page "SUCCEEDED" [{ block_type := "LINE", text := "a" }] (some "t")
        else PollResponse.page "SUCCEEDED" [{ block_type := "LINE", text := "b" }] none)
    3 [{ block_type := "LINE", text := "x" }] [{ block_type := "LINE", text := "a" }]
    [{ block_type := "LINE", text := "b" }] "t"
    (by decide) (by decide) (by decide) (by decide) (by decide) (by decide)
    (by decide) (by decide)

/-- C1 counterexample: a job that reports IN_PROGRESS on every poll makes
the gateway return Except.ok [] after 60 polls — it does not raise the
claimed typed OCR failure, it returns silently with no blocks. -/
theorem pdf_poll_timeout_returns_empty :
    fetch_pdf_blocks (fun _ _ => PollResponse.page "IN_PROGRESS" [] none) =
      Except.ok [] := by
  decide

lemma ocr_text_quality_nonneg (s : String) : 0 ≤ ocr_text_quality s :=
  ocr_quality_chars_nonneg s.toList

lemma analyze_blocks_score_nonneg (b : List Block) : 0 ≤ analyze_blocks_score b := by
  unfold analyze_blocks_score
  refine add_nonneg (add_nonneg (add_nonneg ?_ ?_) ?_) ?_
  · exact mul_nonneg (Nat.cast_nonneg _) (by norm_num)
  · exact mul_nonneg (Nat.cast_nonneg _) (by norm_num)
  · exact mul_nonneg (Nat.cast_nonneg _) (by norm_num)
  · exact mul_nonneg (ocr_text_quality_nonneg _) (by norm_num)

lemma detect_blocks_score_nonneg (b : List Block) : 0 ≤ detect_blocks_score b := by
  unfold detect_blocks_score
  refine add_nonneg ?_ ?_
  · exact mul_nonneg (Nat.cast_nonneg _) (by norm_num)
  · exact mul_nonneg (ocr_text_quality_nonneg _) (by norm_num)

lemma best_candidate_pair (score : List Block → ℚ) (b1 b2 : List Block)
    (h1 : (-1 : ℚ) < score b1) :
    best_candidate score [Except.ok b1, Except.ok b2] =
      Except.ok (if score b2 > score b1 then b2 else b1,
        score (if score b2 > score b1 then b2 else b1)) := by
  by_cases h : score b2 > score b1
  · simp [best_candidate, h, h1]
  · simp [best_candidate, h, h1]

/-- C4 (amended): with both payloads analyzed successfully, the gateway
keeps the strictly-higher-scoring table-aware result (the original wins
ties); it returns it outright iff its text quality is at least 0.55 and it
has at least 3 LINE blocks; otherwise it keeps the strictly-higher-scoring
detect result and returns it iff it is non-empty and its score strictly
exceeds 0.65 times the kept table-aware score, returning the kept
table-aware result (possibly empty, see the counterexample) in every other
case. -/
theorem image_selection_policy (aO aP dO dP : List Block) :
    fetch_image_blocks true (Except.ok aO) (Except.ok aP) (Except.ok dO) (Except.ok dP) =
      (let A := if analyze_blocks_score aP > analyze_blocks_score aO then aP else aO
       let D := if detect_blocks_score dP > detect_blocks_score dO then dP else dO
       if ocr_text_quality (collect_raw_text A) ≥ 11 / 20 ∧ 3 ≤ line_count A then
         Except.ok A
       else if !(D == []) ∧ detect_blocks_score D > analyze_blocks_score A * (13 / 20) then
         Except.ok D
       else Except.ok A) := by
  have hA : (-1 : ℚ) < analyze_blocks_score aO :=
    lt_of_lt_of_le (by norm_num) (analyze_blocks_score_nonneg aO)
  have hD : (-1 : ℚ) < detect_blocks_score dO :=
    lt_of_lt_of_le (by norm_num) (detect_blocks_score_nonneg dO)
  unfold fetch_image_blocks
  rw [if_pos rfl, if_pos rfl,
    best_candidate_pair analyze_blocks_score aO aP hA,
    best_candidate_pair detect_blocks_score dO dP hD]

/-- C4 counterexample: both table-aware results are empty and low-quality,
the detect result is a non-empty candidate with score 0, which does not
strictly exceed 0.65 times the table-aware score 0 — the gateway returns
the empty table-aware result although a non-empty candidate exists. -/
theorem image_selection_empty_result :
    fetch_image_blocks true (Except.ok []) (Except.ok [])
        (Except.ok [{ block_type := "PAGE", text := "" }]) (Except.ok []) =
      Except.ok ([] : List Block) ∧
      ¬ ([{ block_type := "PAGE", text := "" }] = ([] : List Block)) := by
  refine ⟨by decide, by decide⟩

/-- C3: the metadata patterns are raw strings containing `\\s`, so the
compiled regexes require a literal backslash (and letter-s runs) after the
label; the spec's example line "注文番号: AB-123" therefore yields no
order_number at all, while a line that really contains backslashes does
match. The claim (and the spec) describe the clearly intended `\s*`
whitespace semantics, which the code's escaping slip breaks. -/
theorem metadata_regex_literal_backslash :
    (extract_metadata [{ block_type := "LINE", text := "注文番号: AB-123" }]).order_number =
        none ∧
      (extract_metadata
        [{ block_type := "LINE", text := "注文番号\\:\\AB-123" }]).order_number =
        some "AB-123" := by
  refine ⟨by decide, by decide⟩

end Theorems

end FaxOCR
